import Mathlib

/-!
Verification development for the ctsTraffic traffic engine.

The definitions below are shallow embeddings of the C++ sources:
ctsIOPatternState.hpp, ctsMediaStreamProtocol.hpp,
ctsIOPatternRateLimitPolicy.hpp, ctsSocketBroker.cpp and ctsAcceptEx.cpp.
Machine integers are modelled as Nat (the values handled stay far from the
64-bit wrap; FAIL_FAST aborts are modelled as Option.none where they guard
the paths a theorem depends on).
-/

/-- Protocol selected in ctsConfig (ctsConfig.h, ProtocolType). -/
inductive ProtocolType
  | TCP
  | UDP
deriving DecidableEq

/-- TCP shutdown option (ctsConfig.h, TcpShutdownType). -/
inductive TcpShutdownType
  | GracefulShutdown
  | HardShutdown
deriving DecidableEq

/-- The slice of the global ctsConfig settings consumed by ctsIOPatternState:
Settings->Protocol, IsListening(), Settings->TcpShutdown. -/
structure Config where
  protocol : ProtocolType
  isListening : Bool
  tcpShutdown : TcpShutdownType
deriving DecidableEq

/-- Winsock error code WSAETIMEDOUT. -/
def WSAETIMEDOUT : Nat := 10060

/-- Winsock error code WSAECONNABORTED. -/
def WSAECONNABORTED : Nat := 10053

/-- Winsock error code WSAECONNRESET. -/
def WSAECONNRESET : Nat := 10054

/-- Modelled from the spec: ctsStatistics.hpp is not among the provided
sources; the spec fixes the ConnectionId as "a 32-byte opaque identifier". -/
def ctsStatisticsConnectionIdLength : Nat := 32

/-- ctsIOPatternProtocolTask (ctsIOPatternState.hpp). The two values the
source calls NoIo and MoreIo are rendered NoIoTask and MoreIoTask here. -/
inductive ctsIOPatternProtocolTask
  | NoIoTask
  | SendConnectionId
  | RecvConnectionId
  | MoreIoTask
  | SendCompletion
  | RecvCompletion
  | GracefulShutdown
  | HardShutdown
  | RequestFIN
deriving DecidableEq

/-- ctsIOPatternProtocolError (ctsIOPatternState.hpp). -/
inductive ctsIOPatternProtocolError
  | NoError
  | TooManyBytes
  | TooFewBytes
  | CorruptedBytes
  | ErrorIOFailed
  | SuccessfullyCompleted
deriving DecidableEq

/-- ctsIOPatternState::InternalPatternState (ctsIOPatternState.hpp). The
value the source calls MoreIo is rendered MoreIoState here. -/
inductive InternalPatternState
  | Initialized
  | MoreIoState
  | ServerSendConnectionId
  | ClientRecvConnectionId
  | ServerSendCompletion
  | ClientRecvCompletion
  | GracefulShutdown
  | HardShutdown
  | RequestFIN
  | CompletedTransfer
  | ErrorIOFailed
deriving DecidableEq

/-- Modelled from the spec: ctsIOTask.hpp is not among the provided sources.
Only the two fields ctsIOPatternState consumes are modelled: the track_io
flag ("whether bytes count toward the transfer total", spec section 3,
rendered track_io_flag here) and buffer_length. -/
structure ctsIOTask where
  track_io_flag : Bool
  buffer_length : Nat
deriving DecidableEq

/-- The member data of ctsIOPatternState (ctsIOPatternState.hpp). -/
structure ctsIOPatternState where
  confirmed_bytes : Nat
  max_transfer : Nat
  inflight_bytes : Nat
  isb : Nat
  internal_state : InternalPatternState
  pended_state : Bool
deriving DecidableEq

/-- ctsIOPatternState constructor: UDP starts in MoreIo, otherwise
Initialized; byte counters start at zero. max_transfer is
ctsConfig::GetTransferSize() and isb derives from the configuration, both
taken as parameters here. -/
def ctsIOPatternState.init (cfg : Config) (maxTransfer isbValue : Nat) :
    ctsIOPatternState :=
  { confirmed_bytes := 0
    max_transfer := maxTransfer
    inflight_bytes := 0
    isb := isbValue
    internal_state :=
      if cfg.protocol = ProtocolType.UDP then InternalPatternState.MoreIoState
      else InternalPatternState.Initialized
    pended_state := false }

/-- ctsIOPatternState::is_completed. -/
def ctsIOPatternState.is_completed (s : ctsIOPatternState) : Bool :=
  decide (s.internal_state = InternalPatternState.CompletedTransfer ∨
    s.internal_state = InternalPatternState.ErrorIOFailed)

/-- ctsIOPatternState::get_next_task, returning the task together with the
updated state (the C++ member function mutates in place). -/
def ctsIOPatternState.get_next_task (cfg : Config) (s : ctsIOPatternState) :
    ctsIOPatternProtocolTask × ctsIOPatternState :=
  if s.pended_state then
    (ctsIOPatternProtocolTask.NoIoTask, s)
  else
    match s.internal_state with
    | InternalPatternState.Initialized =>
        if cfg.isListening then
          (ctsIOPatternProtocolTask.SendConnectionId,
            { s with pended_state := true
                     internal_state := InternalPatternState.ServerSendConnectionId })
        else
          (ctsIOPatternProtocolTask.RecvConnectionId,
            { s with pended_state := true
                     internal_state := InternalPatternState.ClientRecvConnectionId })
    | InternalPatternState.ServerSendConnectionId =>
        (ctsIOPatternProtocolTask.MoreIoTask,
          { s with internal_state := InternalPatternState.MoreIoState })
    | InternalPatternState.ClientRecvConnectionId =>
        (ctsIOPatternProtocolTask.MoreIoTask,
          { s with internal_state := InternalPatternState.MoreIoState })
    | InternalPatternState.MoreIoState =>
        if s.confirmed_bytes + s.inflight_bytes < s.max_transfer then
          (ctsIOPatternProtocolTask.MoreIoTask, s)
        else
          (ctsIOPatternProtocolTask.NoIoTask, s)
    | InternalPatternState.ServerSendCompletion =>
        (ctsIOPatternProtocolTask.SendCompletion, { s with pended_state := true })
    | InternalPatternState.ClientRecvCompletion =>
        (ctsIOPatternProtocolTask.RecvCompletion, { s with pended_state := true })
    | InternalPatternState.GracefulShutdown =>
        (ctsIOPatternProtocolTask.GracefulShutdown, { s with pended_state := true })
    | InternalPatternState.HardShutdown =>
        (ctsIOPatternProtocolTask.HardShutdown, { s with pended_state := true })
    | InternalPatternState.RequestFIN =>
        (ctsIOPatternProtocolTask.RequestFIN, { s with pended_state := true })
    | InternalPatternState.CompletedTransfer =>
        (ctsIOPatternProtocolTask.NoIoTask, s)
    | InternalPatternState.ErrorIOFailed =>
        (ctsIOPatternProtocolTask.NoIoTask, s)

/-- ctsIOPatternState::notify_next_task: tracked tasks add their buffer
length to the in-flight byte count. -/
def ctsIOPatternState.notify_next_task (s : ctsIOPatternState) (t : ctsIOTask) :
    ctsIOPatternState :=
  if t.track_io_flag then
    { s with inflight_bytes := s.inflight_bytes + t.buffer_length }
  else s

/-- ctsIOPatternState::update_error. -/
def ctsIOPatternState.update_error (cfg : Config) (s : ctsIOPatternState)
    (error_code : Nat) : ctsIOPatternProtocolError × ctsIOPatternState :=
  if s.internal_state = InternalPatternState.ErrorIOFailed then
    (ctsIOPatternProtocolError.ErrorIOFailed, s)
  else if cfg.protocol = ProtocolType.UDP then
    if error_code ≠ 0 then
      (ctsIOPatternProtocolError.ErrorIOFailed,
        { s with internal_state := InternalPatternState.ErrorIOFailed })
    else
      (ctsIOPatternProtocolError.NoError, s)
  else
    if error_code ≠ 0 ∧ ¬ s.is_completed then
      if cfg.isListening = true ∧
          s.internal_state = InternalPatternState.RequestFIN ∧
          (error_code = WSAETIMEDOUT ∨ error_code = WSAECONNRESET ∨
            error_code = WSAECONNABORTED) then
        (ctsIOPatternProtocolError.NoError, s)
      else
        (ctsIOPatternProtocolError.ErrorIOFailed,
          { s with internal_state := InternalPatternState.ErrorIOFailed })
    else
      (ctsIOPatternProtocolError.NoError, s)

/-- The protocol-contract section of ctsIOPatternState::completed_task (from
the comment "Verify IO Post-condition protocol contracts" to the end), run
on the state after byte accounting. The FAIL_FAST on an invalid internal
state is Option.none. -/
def ctsIOPatternState.completed_task_protocol (cfg : Config)
    (s2 : ctsIOPatternState) (completed_bytes : Nat) :
    Option (ctsIOPatternProtocolError × ctsIOPatternState) :=
  let already := s2.confirmed_bytes + s2.inflight_bytes
  if cfg.protocol = ProtocolType.UDP then
    if already = s2.max_transfer then
      some (ctsIOPatternProtocolError.SuccessfullyCompleted, s2)
    else
      some (ctsIOPatternProtocolError.NoError, s2)
  else
    if already < s2.max_transfer then
      if completed_bytes = 0 then
        some (ctsIOPatternProtocolError.TooFewBytes,
          { s2 with internal_state := InternalPatternState.ErrorIOFailed })
      else
        some (ctsIOPatternProtocolError.NoError, s2)
    else if already = s2.max_transfer then
      if s2.inflight_bytes = 0 then
        if cfg.isListening then
          match s2.internal_state with
          | InternalPatternState.MoreIoState =>
              some (ctsIOPatternProtocolError.NoError,
                { s2 with internal_state := InternalPatternState.ServerSendCompletion
                          pended_state := false })
          | InternalPatternState.ServerSendCompletion =>
              some (ctsIOPatternProtocolError.NoError,
                { s2 with internal_state := InternalPatternState.RequestFIN
                          pended_state := false })
          | InternalPatternState.RequestFIN =>
              if completed_bytes ≠ 0 then
                some (ctsIOPatternProtocolError.TooManyBytes,
                  { s2 with internal_state := InternalPatternState.ErrorIOFailed })
              else
                some (ctsIOPatternProtocolError.SuccessfullyCompleted,
                  { s2 with internal_state := InternalPatternState.CompletedTransfer })
          | _ => none
        else
          match s2.internal_state with
          | InternalPatternState.MoreIoState =>
              some (ctsIOPatternProtocolError.NoError,
                { s2 with internal_state := InternalPatternState.ClientRecvCompletion
                          pended_state := false })
          | InternalPatternState.ClientRecvCompletion =>
              if completed_bytes ≠ 4 then
                some (ctsIOPatternProtocolError.TooFewBytes,
                  { s2 with internal_state := InternalPatternState.ErrorIOFailed })
              else if cfg.tcpShutdown = TcpShutdownType.GracefulShutdown then
                some (ctsIOPatternProtocolError.NoError,
                  { s2 with internal_state := InternalPatternState.GracefulShutdown
                            pended_state := false })
              else
                some (ctsIOPatternProtocolError.NoError,
                  { s2 with internal_state := InternalPatternState.HardShutdown
                            pended_state := false })
          | InternalPatternState.GracefulShutdown =>
              some (ctsIOPatternProtocolError.NoError,
                { s2 with internal_state := InternalPatternState.RequestFIN
                          pended_state := false })
          | InternalPatternState.RequestFIN =>
              if completed_bytes ≠ 0 then
                some (ctsIOPatternProtocolError.TooManyBytes,
                  { s2 with internal_state := InternalPatternState.ErrorIOFailed })
              else
                some (ctsIOPatternProtocolError.SuccessfullyCompleted,
                  { s2 with internal_state := InternalPatternState.CompletedTransfer })
          | InternalPatternState.HardShutdown =>
              some (ctsIOPatternProtocolError.SuccessfullyCompleted,
                { s2 with internal_state := InternalPatternState.CompletedTransfer })
          | _ => none
      else
        some (ctsIOPatternProtocolError.NoError, s2)
    else
      some (ctsIOPatternProtocolError.TooManyBytes,
        { s2 with internal_state := InternalPatternState.ErrorIOFailed })

/-- ctsIOPatternState::completed_task. The three FAIL_FAST consistency
checks on a tracked completion are Option.none. -/
def ctsIOPatternState.completed_task (cfg : Config) (s : ctsIOPatternState)
    (t : ctsIOTask) (completed_bytes : Nat) :
    Option (ctsIOPatternProtocolError × ctsIOPatternState) :=
  if s.internal_state = InternalPatternState.ErrorIOFailed then
    some (ctsIOPatternProtocolError.ErrorIOFailed, s)
  else if (s.internal_state = InternalPatternState.ServerSendConnectionId ∨
      s.internal_state = InternalPatternState.ClientRecvConnectionId) ∧
      completed_bytes ≠ ctsStatisticsConnectionIdLength then
    some (ctsIOPatternProtocolError.TooFewBytes,
      { s with internal_state := InternalPatternState.ErrorIOFailed })
  else
    let s1 :=
      if s.internal_state = InternalPatternState.ServerSendConnectionId ∨
          s.internal_state = InternalPatternState.ClientRecvConnectionId then
        { s with pended_state := false }
      else s
    if t.track_io_flag = true ∧
        (completed_bytes > s1.inflight_bytes ∨
          t.buffer_length > s1.inflight_bytes ∨
          completed_bytes > t.buffer_length) then
      none
    else
      let s2 :=
        if t.track_io_flag then
          { s1 with inflight_bytes := s1.inflight_bytes - t.buffer_length
                    confirmed_bytes := s1.confirmed_bytes + completed_bytes }
        else s1
      ctsIOPatternState.completed_task_protocol cfg s2 completed_bytes

/-! MediaStream framing (ctsMediaStreamProtocol.hpp). -/

/-- Protocol flag for a Data datagram. -/
def UdpDatagramProtocolHeaderFlagData : Nat := 0x0000

/-- Protocol flag for an Id datagram. -/
def UdpDatagramProtocolHeaderFlagId : Nat := 0x1000

/-- Length of the leading protocol flag. -/
def UdpDatagramProtocolHeaderFlagLength : Nat := 2

/-- Length of the sequence-number field (64-bit value). -/
def UdpDatagramSequenceNumberLength : Nat := 8

/-- Length of the QPC field (64-bit value). -/
def UdpDatagramQPCLength : Nat := 8

/-- Length of the QPF field (64-bit value). -/
def UdpDatagramQPFLength : Nat := 8

/-- Total length of the Data header: flag + sequence + QPC + QPF. -/
def UdpDatagramDataHeaderLength : Nat :=
  UdpDatagramProtocolHeaderFlagLength + UdpDatagramSequenceNumberLength +
    UdpDatagramQPCLength + UdpDatagramQPFLength

/-- Maximum datagram size emitted by the send iterator. -/
def UdpDatagramMaximumSizeBytes : Nat := 64000

/-- Little-endian byte serialization of a value into a fixed number of
bytes, as the x86 memory image of the 64-bit fields referenced by the
WSABUF entries of ctsMediaStreamSendRequests. -/
def natToLeBytes : Nat → Nat → List Nat
  | _, 0 => []
  | n, k + 1 => n % 256 :: natToLeBytes (n / 256) k

/-- Little-endian reassembly of a byte list, as the memcpy into a 64-bit
value performed by the Get*FromTask readers. -/
def leBytesToNat : List Nat → Nat
  | [] => 0
  | b :: rest => b % 256 + 256 * leBytesToNat rest

/-- The wire image of one Data datagram as laid out by the
ctsMediaStreamSendRequests constructor: wsabuf[0] the 2-byte flag,
wsabuf[1] the 8-byte sequence number, wsabuf[2] the 8-byte QPC value,
wsabuf[3] the 8-byte QPF value, wsabuf[4] the payload. -/
def encodeMediaStreamDatagram (seq qpc qpf : Nat) (payload : List Nat) :
    List Nat :=
  natToLeBytes UdpDatagramProtocolHeaderFlagData UdpDatagramProtocolHeaderFlagLength ++
    natToLeBytes seq UdpDatagramSequenceNumberLength ++
    natToLeBytes qpc UdpDatagramQPCLength ++
    natToLeBytes qpf UdpDatagramQPFLength ++
    payload

/-- The buffer coordinates of a received datagram handed to the
ctsMediaStreamMessage readers: the task buffer plus its offset. -/
structure ctsMediaStreamRecvTask where
  buffer : List Nat
  buffer_offset : Nat
deriving DecidableEq

/-- ctsMediaStreamMessage::GetSequenceNumberFromTask: memcpy of
UdpDatagramSequenceNumberLength bytes from
buffer + buffer_offset + UdpDatagramProtocolHeaderFlagLength. -/
def GetSequenceNumberFromTask (t : ctsMediaStreamRecvTask) : Nat :=
  leBytesToNat
    (((t.buffer.drop (t.buffer_offset + UdpDatagramProtocolHeaderFlagLength)).take
      UdpDatagramSequenceNumberLength))

/-- ctsMediaStreamMessage::GetQueryPerfCounterFromTask: the source copies
UdpDatagramSequenceNumberLength bytes from
buffer + buffer_offset + UdpDatagramProtocolHeaderFlagLength, the same
offset as the sequence number. -/
def GetQueryPerfCounterFromTask (t : ctsMediaStreamRecvTask) : Nat :=
  leBytesToNat
    (((t.buffer.drop (t.buffer_offset + UdpDatagramProtocolHeaderFlagLength)).take
      UdpDatagramSequenceNumberLength))

/-- ctsMediaStreamMessage::GetQueryPerfFrequencyFromTask: the source copies
UdpDatagramSequenceNumberLength bytes from
buffer + buffer_offset + UdpDatagramProtocolHeaderFlagLength, the same
offset as the sequence number. -/
def GetQueryPerfFrequencyFromTask (t : ctsMediaStreamRecvTask) : Nat :=
  leBytesToNat
    (((t.buffer.drop (t.buffer_offset + UdpDatagramProtocolHeaderFlagLength)).take
      UdpDatagramSequenceNumberLength))

/-- ctsMediaStreamSendRequests::iterator::update_buffer_length, as a
function of the remaining bytes_to_send: computes the total size of the
datagram about to be emitted (header plus payload slice), shrinking the
payload when the naive split would leave a remainder in
(0, UdpDatagramDataHeaderLength]. -/
def update_buffer_length (bytes_to_send : Nat) : Nat :=
  let payload_len :=
    if bytes_to_send > UdpDatagramMaximumSizeBytes then
      UdpDatagramMaximumSizeBytes - UdpDatagramDataHeaderLength
    else
      bytes_to_send - UdpDatagramDataHeaderLength
  let total_bytes_to_send :=
    UdpDatagramProtocolHeaderFlagLength + UdpDatagramSequenceNumberLength +
      UdpDatagramQPCLength + UdpDatagramQPFLength + payload_len
  let bytes_remaining : Int := (bytes_to_send : Int) - (total_bytes_to_send : Int)
  if 0 < bytes_remaining ∧ bytes_remaining ≤ (UdpDatagramDataHeaderLength : Int) then
    let delta_to_remove := UdpDatagramDataHeaderLength + 1 - bytes_remaining.toNat
    total_bytes_to_send - delta_to_remove
  else
    total_bytes_to_send

/-- The sequence of (datagram size, bytes remaining afterwards) pairs
produced by repeatedly applying iterator::operator++ until bytes_to_send
reaches zero. Structural recursion on a fuel argument: each emitted
datagram is nonempty, so fuel equal to the starting byte count suffices. -/
def mediaStreamSendScheduleAux : Nat → Nat → List (Nat × Nat)
  | 0, _ => []
  | fuel + 1, bytes_to_send =>
      if bytes_to_send = 0 then []
      else
        let d := update_buffer_length bytes_to_send
        (d, bytes_to_send - d) :: mediaStreamSendScheduleAux fuel (bytes_to_send - d)

/-- The full send schedule for a given starting byte count. -/
def mediaStreamSendSchedule (bytes_to_send : Nat) : List (Nat × Nat) :=
  mediaStreamSendScheduleAux bytes_to_send bytes_to_send

/-! Rate-limit policy (ctsIOPatternRateLimitPolicy.hpp, throttle
specialization). -/

/-- ctsTaskAction values relevant to the rate limiter. -/
inductive ctsTaskAction
  | Send
  | Recv
deriving DecidableEq

/-- The slice of ctsTask consumed by the rate limiter: the action and the
time offset the policy writes. -/
structure ctsTask where
  m_ioAction : ctsTaskAction
  m_timeOffsetMilliseconds : Nat
deriving DecidableEq

/-- Member data of the ctsIOPatternRateLimitThrottle specialization of
ctsIOPatternRateLimitPolicy. -/
structure ctsIOPatternRateLimitThrottle where
  BytesSendingPerQuantum : Nat
  QuantumPeriodMs : Nat
  bytes_sent_this_quantum : Nat
  quantum_start_time_ms : Nat
deriving DecidableEq

/-- ctsIOPatternRateLimitPolicy::newQuantumStartTime. -/
def ctsIOPatternRateLimitThrottle.newQuantumStartTime
    (p : ctsIOPatternRateLimitThrottle) : Nat :=
  p.quantum_start_time_ms +
    p.bytes_sent_this_quantum / p.BytesSendingPerQuantum * p.QuantumPeriodMs

/-- ctsIOPatternRateLimitPolicy::update_time_offset for the throttle
specialization, with the clock reading passed explicitly. Returns the
updated task together with the updated policy state. -/
def ctsIOPatternRateLimitThrottle.update_time_offset
    (p : ctsIOPatternRateLimitThrottle) (task : ctsTask)
    (buffer_size : Nat) (current_time_ms : Nat) :
    ctsTask × ctsIOPatternRateLimitThrottle :=
  if task.m_ioAction ≠ ctsTaskAction.Send then
    (task, p)
  else
    let task0 := { task with m_timeOffsetMilliseconds := 0 }
    if p.bytes_sent_this_quantum < p.BytesSendingPerQuantum then
      if current_time_ms < p.quantum_start_time_ms + p.QuantumPeriodMs then
        if current_time_ms > p.quantum_start_time_ms then
          (task0,
            { p with bytes_sent_this_quantum := p.bytes_sent_this_quantum + buffer_size })
        else
          ({ task0 with m_timeOffsetMilliseconds :=
              p.newQuantumStartTime - current_time_ms },
            { p with bytes_sent_this_quantum := p.bytes_sent_this_quantum + buffer_size })
      else
        (task0,
          { p with bytes_sent_this_quantum := buffer_size
                   quantum_start_time_ms :=
                     p.quantum_start_time_ms + (current_time_ms - p.quantum_start_time_ms) })
    else
      let new_quantum_start_time_ms := p.newQuantumStartTime
      if current_time_ms < new_quantum_start_time_ms then
        ({ task0 with m_timeOffsetMilliseconds :=
            new_quantum_start_time_ms - current_time_ms },
          { p with bytes_sent_this_quantum := buffer_size
                   quantum_start_time_ms := new_quantum_start_time_ms })
      else
        (task0,
          { p with bytes_sent_this_quantum := buffer_size
                   quantum_start_time_ms :=
                     p.quantum_start_time_ms + (current_time_ms - p.quantum_start_time_ms) })

/-! AcceptEngine (ctsAcceptEx.cpp). -/

/-- The result fields of ctsAcceptSocketInfo::GetAcceptedSocket consumed by
the completion callback: the Winsock error and an opaque token standing for
the accepted socket with its resolved addresses. -/
structure ctsAcceptedConnection where
  gle : Nat
  socket_token : Nat
deriving DecidableEq

/-- The queues of ctsAcceptExImpl guarded by its critical section:
consumers waiting for a socket (weak references modelled as tokens paired
with an alive flag), ready accepted connections, and the shutdown flag. -/
structure ctsAcceptExImplState where
  pended_accept_requests : List (Nat × Bool)
  accepted_connections : List ctsAcceptedConnection
  shutting_down : Bool
deriving DecidableEq

/-- What one invocation of the accept completion callback hands outward: a
consumer completed with an error code, nothing (enqueued or dropped), or a
dead weak reference logged. -/
inductive AcceptCallbackDelivery
  | completedConsumer (consumer : Nat) (gle : Nat)
  | enqueued
  | droppedShutdown
  | deadConsumer
deriving DecidableEq

/-- ctsAcceptExIoCompletionCallback: classifies the completion under the
impl lock. The returned Bool records whether a new AcceptEx was re-armed on
the listener (the InitatiateAcceptEx call at the end of the callback). -/
def ctsAcceptExIoCompletionCallback (st : ctsAcceptExImplState)
    (accepted_socket : ctsAcceptedConnection) :
    ctsAcceptExImplState × Bool × AcceptCallbackDelivery :=
  if st.shutting_down then
    (st, false, AcceptCallbackDelivery.droppedShutdown)
  else
    match st.pended_accept_requests with
    | (consumer, alive) :: rest =>
        if alive then
          ({ st with pended_accept_requests := rest }, true,
            AcceptCallbackDelivery.completedConsumer consumer accepted_socket.gle)
        else
          ({ st with pended_accept_requests := rest }, true,
            AcceptCallbackDelivery.deadConsumer)
    | [] =>
        ({ st with accepted_connections := st.accepted_connections ++ [accepted_socket] },
          true, AcceptCallbackDelivery.enqueued)

/-! Broker (ctsSocketBroker.cpp). -/

/-- The slice of the global configuration the broker consumes:
whether an AcceptFunction is set (server mode), ConnectionLimit,
ConnectionThrottleLimit, AcceptLimit, ServerExitLimit and Iterations. -/
structure BrokerConfig where
  acceptFunction : Bool
  ConnectionLimit : Nat
  ConnectionThrottleLimit : Nat
  AcceptLimit : Nat
  ServerExitLimit : Nat
  Iterations : Nat
deriving DecidableEq

/-- Broker state: the code counters (kept as Int so that dropping below
zero is expressible) plus the socket pool abstracted to how many owned
SocketStates are in the pending phase (created, not yet InitiatingIo), the
active phase (InitiatingIo seen) and Closed. -/
structure ctsSocketBroker where
  m_totalConnectionsRemaining : Nat
  m_pendingLimit : Nat
  m_pendingSockets : Int
  m_activeSockets : Int
  m_done : Bool
  poolPending : Nat
  poolActive : Nat
  poolClosed : Nat
deriving DecidableEq

/-- ctsSocketBroker constructor: server mode takes ServerExitLimit and
AcceptLimit, client mode takes Iterations * ConnectionLimit and
ConnectionLimit; pending_limit is then capped by total_connections. -/
def ctsSocketBroker.init (cfg : BrokerConfig) : ctsSocketBroker :=
  let total :=
    if cfg.acceptFunction then cfg.ServerExitLimit
    else cfg.Iterations * cfg.ConnectionLimit
  let rawLimit :=
    if cfg.acceptFunction then cfg.AcceptLimit else cfg.ConnectionLimit
  { m_totalConnectionsRemaining := total
    m_pendingLimit := if rawLimit > total then total else rawLimit
    m_pendingSockets := 0
    m_activeSockets := 0
    m_done := false
    poolPending := 0
    poolActive := 0
    poolClosed := 0 }

/-- One socket creation: push_back a new SocketState (entering the pool in
its pending phase), Start it, increment pending, decrement remaining. -/
def ctsSocketBroker.createOne (B : ctsSocketBroker) : ctsSocketBroker :=
  { B with m_pendingSockets := B.m_pendingSockets + 1
           m_totalConnectionsRemaining := B.m_totalConnectionsRemaining - 1
           poolPending := B.poolPending + 1 }

/-- The creation loop of ctsSocketBroker::Start: loop while connections
remain and pending is below pending_limit, breaking for clients once
pending reaches ConnectionThrottleLimit. Recursion is on the remaining
connection count, which each iteration decrements. -/
def ctsSocketBroker.startLoop (cfg : BrokerConfig) (B : ctsSocketBroker) :
    ctsSocketBroker :=
  if _h : B.m_totalConnectionsRemaining > 0 ∧
      (B.m_pendingSockets : Int) < (B.m_pendingLimit : Int) then
    if cfg.acceptFunction = false ∧
        B.m_pendingSockets ≥ (cfg.ConnectionThrottleLimit : Int) then
      B
    else
      ctsSocketBroker.startLoop cfg (B.createOne)
  else
    B
termination_by B.m_totalConnectionsRemaining
decreasing_by
  simp [ctsSocketBroker.createOne]
  omega

/-- ctsSocketBroker::Start (the creation part; arming the periodic timer
has no counter effect). -/
def ctsSocketBroker.Start (cfg : BrokerConfig) (B : ctsSocketBroker) :
    ctsSocketBroker :=
  ctsSocketBroker.startLoop cfg B

/-- The refresh loop inside ctsSocketBroker::TimerCallback: loop while
pending is below pending_limit and connections remain; clients break when
pending + active reaches ConnectionLimit or pending reaches the throttle
limit. -/
def ctsSocketBroker.timerLoop (cfg : BrokerConfig) (B : ctsSocketBroker) :
    ctsSocketBroker :=
  if _h : (B.m_pendingSockets : Int) < (B.m_pendingLimit : Int) ∧
      B.m_totalConnectionsRemaining > 0 then
    if cfg.acceptFunction = false ∧
        (B.m_pendingSockets + B.m_activeSockets ≥ (cfg.ConnectionLimit : Int) ∨
          B.m_pendingSockets ≥ (cfg.ConnectionThrottleLimit : Int)) then
      B
    else
      ctsSocketBroker.timerLoop cfg (B.createOne)
  else
    B
termination_by B.m_totalConnectionsRemaining
decreasing_by
  simp [ctsSocketBroker.createOne]
  omega

/-- ctsSocketBroker::TimerCallback: reap Closed SocketStates from the pool,
signal done when all work is finished, otherwise create new sockets unless
the done event is already signalled. -/
def ctsSocketBroker.TimerCallback (cfg : BrokerConfig) (B : ctsSocketBroker) :
    ctsSocketBroker :=
  let B1 := { B with poolClosed := 0 }
  if B1.m_totalConnectionsRemaining = 0 ∧ B1.m_pendingSockets = 0 ∧
      B1.m_activeSockets = 0 then
    { B1 with m_done := true }
  else if B1.m_done = false then
    ctsSocketBroker.timerLoop cfg B1
  else
    B1

/-- ctsSocketBroker::InitiatingIo: a SocketState in its pending phase
reports that it reached InitiatingIo. The FAIL_FAST on an underflowing
decrement is Option.none. -/
def ctsSocketBroker.initiatingIoNotify (B : ctsSocketBroker) :
    Option ctsSocketBroker :=
  if B.m_pendingSockets = 0 then
    none
  else
    some { B with m_pendingSockets := B.m_pendingSockets - 1
                  m_activeSockets := B.m_activeSockets + 1
                  poolPending := B.poolPending - 1
                  poolActive := B.poolActive + 1 }

/-- ctsSocketBroker::Closing: a SocketState reports that it closed,
wasActive true when its prior state was InitiatingIo. The FAIL_FAST on an
underflowing decrement is Option.none. -/
def ctsSocketBroker.closingNotify (B : ctsSocketBroker) (wasActive : Bool) :
    Option ctsSocketBroker :=
  if wasActive then
    if B.m_activeSockets = 0 then
      none
    else
      some { B with m_activeSockets := B.m_activeSockets - 1
                    poolActive := B.poolActive - 1
                    poolClosed := B.poolClosed + 1 }
  else
    if B.m_pendingSockets = 0 then
      none
    else
      some { B with m_pendingSockets := B.m_pendingSockets - 1
                    poolPending := B.poolPending - 1
                    poolClosed := B.poolClosed + 1 }

/-- The broker histories admitted by claim C10: the broker is constructed
and started, then any interleaving of timer callbacks, InitiatingIo
notifications (each from a SocketState still in its pending phase) and
Closing notifications (wasActive true exactly when the SocketState had
notified InitiatingIo). -/
inductive ctsSocketBroker.Reachable (cfg : BrokerConfig) : ctsSocketBroker → Prop
  | start :
      ctsSocketBroker.Reachable cfg
        (ctsSocketBroker.Start cfg (ctsSocketBroker.init cfg))
  | timer {B : ctsSocketBroker} :
      ctsSocketBroker.Reachable cfg B →
      ctsSocketBroker.Reachable cfg (ctsSocketBroker.TimerCallback cfg B)
  | initiating_io_step {B B' : ctsSocketBroker} :
      ctsSocketBroker.Reachable cfg B →
      0 < B.poolPending →
      ctsSocketBroker.initiatingIoNotify B = some B' →
      ctsSocketBroker.Reachable cfg B'
  | closing_active_step {B B' : ctsSocketBroker} :
      ctsSocketBroker.Reachable cfg B →
      0 < B.poolActive →
      ctsSocketBroker.closingNotify B true = some B' →
      ctsSocketBroker.Reachable cfg B'
  | closing_pending_step {B B' : ctsSocketBroker} :
      ctsSocketBroker.Reachable cfg B →
      0 < B.poolPending →
      ctsSocketBroker.closingNotify B false = some B' →
      ctsSocketBroker.Reachable cfg B'

/-!
Theorems for the claims.
-/

/-- C1: the claim asserts that GetSequenceNumberFromTask,
GetQueryPerfCounterFromTask and GetQueryPerfFrequencyFromTask return the
sequence number, QPC and QPF fields of an encoded datagram. The encoder
does lay out the sequence number at offset 2, QPC at offset 10 and QPF at
offset 18 little-endian, but all three readers copy their 8 bytes from
offset 2, so the QPC and QPF readers return the sequence number: at the
datagram encoded from sequence 1, QPC 2, QPF 3 with payload [170], both
return 1 instead of 2 and 3. -/
theorem mediaStream_qpc_qpf_readers_return_sequence_number :
    (encodeMediaStreamDatagram 1 2 3 [170]).length = 27 ∧
    ((encodeMediaStreamDatagram 1 2 3 [170]).drop 2).take 8 = natToLeBytes 1 8 ∧
    ((encodeMediaStreamDatagram 1 2 3 [170]).drop 10).take 8 = natToLeBytes 2 8 ∧
    ((encodeMediaStreamDatagram 1 2 3 [170]).drop 18).take 8 = natToLeBytes 3 8 ∧
    GetSequenceNumberFromTask
      { buffer := encodeMediaStreamDatagram 1 2 3 [170], buffer_offset := 0 } = 1 ∧
    GetQueryPerfCounterFromTask
      { buffer := encodeMediaStreamDatagram 1 2 3 [170], buffer_offset := 0 } = 1 ∧
    GetQueryPerfFrequencyFromTask
      { buffer := encodeMediaStreamDatagram 1 2 3 [170], buffer_offset := 0 } = 1 ∧
    GetQueryPerfCounterFromTask
      { buffer := encodeMediaStreamDatagram 1 2 3 [170], buffer_offset := 0 } ≠ 2 ∧
    GetQueryPerfFrequencyFromTask
      { buffer := encodeMediaStreamDatagram 1 2 3 [170], buffer_offset := 0 } ≠ 3 := by
  decide

/-- C2 counterexample: an accept completion arriving with no consumer
request queued and the engine not shutting down is enqueued on the ready
queue, yet a new AcceptEx is still re-armed on that listener, contradicting
the claim that no re-arm happens on this path. -/
theorem acceptCallback_empty_queue_still_rearms :
    (ctsAcceptExIoCompletionCallback
        { pended_accept_requests := []
          accepted_connections := []
          shutting_down := false }
        { gle := 0, socket_token := 7 }).1.accepted_connections =
      [{ gle := 0, socket_token := 7 }] ∧
    (ctsAcceptExIoCompletionCallback
        { pended_accept_requests := []
          accepted_connections := []
          shutting_down := false }
        { gle := 0, socket_token := 7 }).2.1 = true := by
  decide

/-- C2 amended: when the engine is not shutting down, an accept completion
with no queued consumer enqueues the accepted socket on the ready queue and
a new AcceptEx IS re-armed; with a queued consumer the head is dequeued and
a new AcceptEx is likewise re-armed (the callback always re-arms except on
the shutdown path, where nothing is re-armed). -/
theorem acceptCallback_always_rearms (st : ctsAcceptExImplState)
    (conn : ctsAcceptedConnection) (hLive : st.shutting_down = false) :
    (st.pended_accept_requests = [] →
      (ctsAcceptExIoCompletionCallback st conn).1.accepted_connections =
        st.accepted_connections ++ [conn] ∧
      (ctsAcceptExIoCompletionCallback st conn).2.1 = true) ∧
    (∀ c rest, st.pended_accept_requests = c :: rest →
      (ctsAcceptExIoCompletionCallback st conn).1.pended_accept_requests = rest ∧
      (ctsAcceptExIoCompletionCallback st conn).2.1 = true) ∧
    (∀ stDown : ctsAcceptExImplState, stDown.shutting_down = true →
      (ctsAcceptExIoCompletionCallback stDown conn).2.1 = false) := by
  refine ⟨?_, ?_, ?_⟩
  · intro hq
    simp [ctsAcceptExIoCompletionCallback, hLive, hq]
  · intro c rest hq
    rcases c with ⟨tok, alive⟩
    cases alive <;> simp [ctsAcceptExIoCompletionCallback, hLive, hq]
  · intro stDown hDown
    simp [ctsAcceptExIoCompletionCallback, hDown]

/-- C2 amended witness: the amended statement evaluated at a concrete
engine state with an empty consumer queue. -/
theorem acceptCallback_always_rearms_witness :
    (ctsAcceptExIoCompletionCallback
        { pended_accept_requests := []
          accepted_connections := []
          shutting_down := false }
        { gle := 0, socket_token := 3 }).1.accepted_connections =
      [{ gle := 0, socket_token := 3 }] ∧
    (ctsAcceptExIoCompletionCallback
        { pended_accept_requests := []
          accepted_connections := []
          shutting_down := false }
        { gle := 0, socket_token := 3 }).2.1 = true :=
  (acceptCallback_always_rearms
    { pended_accept_requests := []
      accepted_connections := []
      shutting_down := false }
    { gle := 0, socket_token := 3 } rfl).1 rfl

/-- C3 counterexample: for TCP, update_error with the non-zero code 5 on a
state whose internal state is CompletedTransfer (not listening, so the
RequestFIN exception of the claim does not apply) returns NoError and
leaves the state unchanged, not ErrorIOFailed as the claim requires. -/
theorem update_error_completed_transfer_counterexample :
    ctsIOPatternState.update_error
      { protocol := ProtocolType.TCP
        isListening := false
        tcpShutdown := TcpShutdownType.GracefulShutdown }
      { confirmed_bytes := 4
        max_transfer := 4
        inflight_bytes := 0
        isb := 0
        internal_state := InternalPatternState.CompletedTransfer
        pended_state := false }
      5 =
    (ctsIOPatternProtocolError.NoError,
      { confirmed_bytes := 4
        max_transfer := 4
        inflight_bytes := 0
        isb := 0
        internal_state := InternalPatternState.CompletedTransfer
        pended_state := false }) := by
  decide

/-- C3 amended: for TCP, update_error with a non-zero code transitions to
ErrorIoFailed and returns ErrorIOFailed, except that (a) a listening
instance in RequestFIN with code WSAETIMEDOUT, WSAECONNRESET or
WSAECONNABORTED gets NoError with the state unchanged, (b) a state already
in CompletedTransfer gets NoError with the state unchanged, and (c) a state
already in ErrorIoFailed returns ErrorIOFailed with the state unchanged. -/
theorem update_error_tcp_characterization (cfg : Config)
    (s : ctsIOPatternState) (err : Nat)
    (hTcp : cfg.protocol = ProtocolType.TCP) :
    (s.internal_state = InternalPatternState.ErrorIOFailed →
      s.update_error cfg err = (ctsIOPatternProtocolError.ErrorIOFailed, s)) ∧
    (s.internal_state = InternalPatternState.CompletedTransfer →
      s.update_error cfg err = (ctsIOPatternProtocolError.NoError, s)) ∧
    (cfg.isListening = true →
      s.internal_state = InternalPatternState.RequestFIN →
      (err = WSAETIMEDOUT ∨ err = WSAECONNRESET ∨ err = WSAECONNABORTED) →
      s.update_error cfg err = (ctsIOPatternProtocolError.NoError, s)) ∧
    (err ≠ 0 →
      s.internal_state ≠ InternalPatternState.ErrorIOFailed →
      s.internal_state ≠ InternalPatternState.CompletedTransfer →
      ¬(cfg.isListening = true ∧
        s.internal_state = InternalPatternState.RequestFIN ∧
        (err = WSAETIMEDOUT ∨ err = WSAECONNRESET ∨ err = WSAECONNABORTED)) →
      s.update_error cfg err =
        (ctsIOPatternProtocolError.ErrorIOFailed,
          { s with internal_state := InternalPatternState.ErrorIOFailed })) := by
  have hNotUdp : ¬ cfg.protocol = ProtocolType.UDP := by
    rw [hTcp]; intro hContra; cases hContra
  refine ⟨?_, ?_, ?_, ?_⟩
  · intro hState
    simp [ctsIOPatternState.update_error, hState]
  · intro hState
    simp [ctsIOPatternState.update_error, hState, hNotUdp,
      ctsIOPatternState.is_completed]
  · intro hListen hState hCode
    have hErr : err ≠ 0 := by
      rcases hCode with h1 | h1 | h1 <;> rw [h1] <;> decide
    simp [ctsIOPatternState.update_error, hState, hNotUdp,
      ctsIOPatternState.is_completed, hListen, hErr, hCode]
  · intro hErr hNotFailed hNotCompleted hNoExc
    have hNotDone : ¬(s.internal_state = InternalPatternState.CompletedTransfer ∨
        s.internal_state = InternalPatternState.ErrorIOFailed) := by
      tauto
    simp [ctsIOPatternState.update_error, hNotFailed, hNotUdp, hErr,
      ctsIOPatternState.is_completed, hNotDone, hNoExc]
    exact hNotCompleted

/-- C3 amended witness: a listening server in RequestFIN receiving
WSAECONNRESET is treated as NoError with the state unchanged. -/
theorem update_error_tcp_characterization_witness :
    ctsIOPatternState.update_error
      { protocol := ProtocolType.TCP
        isListening := true
        tcpShutdown := TcpShutdownType.GracefulShutdown }
      { confirmed_bytes := 4
        max_transfer := 4
        inflight_bytes := 0
        isb := 0
        internal_state := InternalPatternState.RequestFIN
        pended_state := true }
      10054 =
    (ctsIOPatternProtocolError.NoError,
      { confirmed_bytes := 4
        max_transfer := 4
        inflight_bytes := 0
        isb := 0
        internal_state := InternalPatternState.RequestFIN
        pended_state := true }) :=
  (update_error_tcp_characterization
    { protocol := ProtocolType.TCP
      isListening := true
      tcpShutdown := TcpShutdownType.GracefulShutdown }
    { confirmed_bytes := 4
      max_transfer := 4
      inflight_bytes := 0
      isb := 0
      internal_state := InternalPatternState.RequestFIN
      pended_state := true }
    10054 rfl).2.2.1 rfl rfl (Or.inr (Or.inl rfl))

/-- Helper: get_next_task never changes the byte counters or the transfer
target, only the internal state and the pended flag. -/
theorem get_next_task_preserves_bytes (cfg : Config) (s : ctsIOPatternState) :
    (ctsIOPatternState.get_next_task cfg s).2.confirmed_bytes = s.confirmed_bytes ∧
    (ctsIOPatternState.get_next_task cfg s).2.inflight_bytes = s.inflight_bytes ∧
    (ctsIOPatternState.get_next_task cfg s).2.max_transfer = s.max_transfer := by
  unfold ctsIOPatternState.get_next_task
  repeat' split
  all_goals simp

/-- Helper: the protocol-contract section of completed_task never changes
the byte counters or the transfer target. -/
theorem completed_task_protocol_preserves_bytes (cfg : Config)
    (s2 : ctsIOPatternState) (b : Nat) (e : ctsIOPatternProtocolError)
    (s' : ctsIOPatternState)
    (h : ctsIOPatternState.completed_task_protocol cfg s2 b = some (e, s')) :
    s'.confirmed_bytes = s2.confirmed_bytes ∧
    s'.inflight_bytes = s2.inflight_bytes ∧
    s'.max_transfer = s2.max_transfer := by
  simp only [ctsIOPatternState.completed_task_protocol] at h
  repeat' split at h
  all_goals
    first
      | (rcases Option.some_inj.mp h with ⟨rfl, rfl⟩; exact ⟨rfl, rfl, rfl⟩)
      | cases h

/-- Helper: a completed_task call that does not fail fast never increases
confirmed plus in-flight bytes and never changes the transfer target. -/
theorem completed_task_byte_bound (cfg : Config) (s : ctsIOPatternState)
    (t : ctsIOTask) (b : Nat) (e : ctsIOPatternProtocolError)
    (s' : ctsIOPatternState)
    (h : ctsIOPatternState.completed_task cfg s t b = some (e, s')) :
    s'.confirmed_bytes + s'.inflight_bytes ≤ s.confirmed_bytes + s.inflight_bytes ∧
    s'.max_transfer = s.max_transfer := by
  simp only [ctsIOPatternState.completed_task] at h
  repeat' split at h
  all_goals
    first
      | (rcases Option.some_inj.mp h with ⟨rfl, rfl⟩; exact ⟨Nat.le_refl _, rfl⟩)
      | exact Option.noConfusion h
      | (have hres := completed_task_protocol_preserves_bytes cfg _ b e s' h;
         simp_all <;> omega)

/-- The IoPatternState histories admitted by claim C5: the freshly
constructed state, then any interleaving of get_next_task calls,
notify_next_task calls whose tracked lengths do not exceed the remaining
transfer, and completed_task calls that do not fail fast. -/
inductive ctsIOPatternState.Reachable (cfg : Config) : ctsIOPatternState → Prop
  | init (maxTransfer isbValue : Nat) :
      ctsIOPatternState.Reachable cfg (ctsIOPatternState.init cfg maxTransfer isbValue)
  | next_task {s : ctsIOPatternState} :
      ctsIOPatternState.Reachable cfg s →
      ctsIOPatternState.Reachable cfg (ctsIOPatternState.get_next_task cfg s).2
  | notify {s : ctsIOPatternState} (t : ctsIOTask) :
      ctsIOPatternState.Reachable cfg s →
      (t.track_io_flag = true →
        s.confirmed_bytes + s.inflight_bytes + t.buffer_length ≤ s.max_transfer) →
      ctsIOPatternState.Reachable cfg (ctsIOPatternState.notify_next_task s t)
  | completed {s s' : ctsIOPatternState} (t : ctsIOTask) (b : Nat)
      (e : ctsIOPatternProtocolError) :
      ctsIOPatternState.Reachable cfg s →
      ctsIOPatternState.completed_task cfg s t b = some (e, s') →
      ctsIOPatternState.Reachable cfg s'

/-- C5: for every IoPatternState reachable by any sequence of
get_next_task, notify_next_task on tasks whose tracked lengths do not
exceed the remaining transfer, and completed_task calls, confirmed_bytes
plus inflight_bytes never exceeds max_transfer. -/
theorem ioPatternState_transfer_invariant (cfg : Config)
    (s : ctsIOPatternState) (h : ctsIOPatternState.Reachable cfg s) :
    s.confirmed_bytes + s.inflight_bytes ≤ s.max_transfer := by
  induction h with
  | init maxTransfer isbValue =>
      simp [ctsIOPatternState.init]
  | next_task _ ih =>
      rename_i sPrev _
      have hB := get_next_task_preserves_bytes cfg sPrev
      omega
  | notify t _ hLen ih =>
      rename_i sPrev _
      unfold ctsIOPatternState.notify_next_task
      split
      · rename_i hTrack
        have := hLen hTrack
        simp
        omega
      · simpa using ih
  | completed t b e _ hStep ih =>
      rename_i sPrev sNext _
      have hB := completed_task_byte_bound cfg sPrev t b e sNext hStep
      omega

/-- C5 witness: the invariant evaluated on the freshly constructed client
TCP state with transfer target 7. -/
theorem ioPatternState_transfer_invariant_witness :
    (ctsIOPatternState.init
        { protocol := ProtocolType.TCP
          isListening := false
          tcpShutdown := TcpShutdownType.GracefulShutdown } 7 3).confirmed_bytes +
      (ctsIOPatternState.init
        { protocol := ProtocolType.TCP
          isListening := false
          tcpShutdown := TcpShutdownType.GracefulShutdown } 7 3).inflight_bytes ≤
      (ctsIOPatternState.init
        { protocol := ProtocolType.TCP
          isListening := false
          tcpShutdown := TcpShutdownType.GracefulShutdown } 7 3).max_transfer :=
  ioPatternState_transfer_invariant
    { protocol := ProtocolType.TCP
      isListening := false
      tcpShutdown := TcpShutdownType.GracefulShutdown }
    _ (ctsIOPatternState.Reachable.init 7 3)

/-- C6: every non-MoreIo task returned by get_next_task leaves the pended
flag set, so the same task is never issued twice: while pended, every
get_next_task call returns NoIo with the state unchanged (until a
completed_task call clears the flag); MoreIo carries no pended flag and may
be returned repeatedly; and get_next_task returns NoIo whenever the
transfer has completed, an error occurred, a pended step is outstanding, or
confirmed plus in-flight bytes have reached max_transfer in the MoreIo
state. -/
theorem get_next_task_pended_discipline (cfg : Config) (s : ctsIOPatternState) :
    ((ctsIOPatternState.get_next_task cfg s).1 ≠ ctsIOPatternProtocolTask.MoreIoTask →
      (ctsIOPatternState.get_next_task cfg s).1 ≠ ctsIOPatternProtocolTask.NoIoTask →
      (ctsIOPatternState.get_next_task cfg s).2.pended_state = true) ∧
    (s.pended_state = true →
      ctsIOPatternState.get_next_task cfg s = (ctsIOPatternProtocolTask.NoIoTask, s)) ∧
    ((s.internal_state = InternalPatternState.CompletedTransfer ∨
        s.internal_state = InternalPatternState.ErrorIOFailed) →
      (ctsIOPatternState.get_next_task cfg s).1 = ctsIOPatternProtocolTask.NoIoTask) ∧
    (s.internal_state = InternalPatternState.MoreIoState →
      s.max_transfer ≤ s.confirmed_bytes + s.inflight_bytes →
      (ctsIOPatternState.get_next_task cfg s).1 = ctsIOPatternProtocolTask.NoIoTask) := by
  refine ⟨?_, ?_, ?_, ?_⟩
  · unfold ctsIOPatternState.get_next_task
    repeat' split
    all_goals simp_all
  · intro hp
    unfold ctsIOPatternState.get_next_task
    simp [hp]
  · intro hs
    unfold ctsIOPatternState.get_next_task
    rcases hs with hs | hs
    all_goals repeat' split
    all_goals simp_all
  · intro hs hge
    have hlt : ¬(s.confirmed_bytes + s.inflight_bytes < s.max_transfer) := by omega
    unfold ctsIOPatternState.get_next_task
    repeat' split
    all_goals simp_all

/-- C6 witness: a server state in ServerSendCompletion with the flag clear
receives the SendCompletion task and the flag is set afterwards. -/
theorem get_next_task_pended_discipline_witness :
    (ctsIOPatternState.get_next_task
      { protocol := ProtocolType.TCP
        isListening := true
        tcpShutdown := TcpShutdownType.GracefulShutdown }
      { confirmed_bytes := 4
        max_transfer := 4
        inflight_bytes := 0
        isb := 0
        internal_state := InternalPatternState.ServerSendCompletion
        pended_state := false }).2.pended_state = true :=
  (get_next_task_pended_discipline
    { protocol := ProtocolType.TCP
      isListening := true
      tcpShutdown := TcpShutdownType.GracefulShutdown }
    { confirmed_bytes := 4
      max_transfer := 4
      inflight_bytes := 0
      isb := 0
      internal_state := InternalPatternState.ServerSendCompletion
      pended_state := false }).1 (by decide) (by decide)

/-- C7: for TCP, completed_task on a tracked MoreIo task with zero bytes
transferred while confirmed plus in-flight bytes (after accounting) is
still below max_transfer returns TooFewBytes and moves the internal state
to ErrorIoFailed. -/
theorem completed_task_zero_byte_too_few (cfg : Config) (s : ctsIOPatternState)
    (t : ctsIOTask)
    (hTcp : cfg.protocol = ProtocolType.TCP)
    (hState : s.internal_state = InternalPatternState.MoreIoState)
    (hTrack : t.track_io_flag = true)
    (hLenBound : t.buffer_length ≤ s.inflight_bytes)
    (hBelow : s.confirmed_bytes + (s.inflight_bytes - t.buffer_length) <
      s.max_transfer) :
    ctsIOPatternState.completed_task cfg s t 0 =
      some (ctsIOPatternProtocolError.TooFewBytes,
        { s with confirmed_bytes := s.confirmed_bytes + 0
                 inflight_bytes := s.inflight_bytes - t.buffer_length
                 internal_state := InternalPatternState.ErrorIOFailed }) := by
  have hNotGt : ¬(t.buffer_length > s.inflight_bytes) := by omega
  simp [ctsIOPatternState.completed_task, ctsIOPatternState.completed_task_protocol,
    hState, hTrack, hTcp, hNotGt, hBelow]

/-- C7 witness: a tracked 8-byte MoreIo task completing with zero bytes at
confirmed 0 of max 16 yields TooFewBytes and ErrorIoFailed. -/
theorem completed_task_zero_byte_too_few_witness :
    ctsIOPatternState.completed_task
      { protocol := ProtocolType.TCP
        isListening := false
        tcpShutdown := TcpShutdownType.GracefulShutdown }
      { confirmed_bytes := 0
        max_transfer := 16
        inflight_bytes := 8
        isb := 0
        internal_state := InternalPatternState.MoreIoState
        pended_state := false }
      { track_io_flag := true, buffer_length := 8 } 0 =
    some (ctsIOPatternProtocolError.TooFewBytes,
      { confirmed_bytes := 0 + 0
        max_transfer := 16
        inflight_bytes := 8 - 8
        isb := 0
        internal_state := InternalPatternState.ErrorIOFailed
        pended_state := false }) :=
  completed_task_zero_byte_too_few
    { protocol := ProtocolType.TCP
      isListening := false
      tcpShutdown := TcpShutdownType.GracefulShutdown }
    { confirmed_bytes := 0
      max_transfer := 16
      inflight_bytes := 8
      isb := 0
      internal_state := InternalPatternState.MoreIoState
      pended_state := false }
    { track_io_flag := true, buffer_length := 8 }
    rfl rfl rfl (by decide) (by decide)

/-- C4: for TCP completed_task, when after accounting a completion
confirmed plus in-flight bytes equals max_transfer and in-flight is zero,
the state advances into the completion phase: on the server MoreIo advances
to ServerSendCompletion, a ServerSendCompletion completion advances to
RequestFIN, and a zero-byte RequestFIN completion advances to
CompletedTransfer with SuccessfullyCompleted; when confirmed plus
in-flight strictly exceeds max_transfer, completed_task returns
TooManyBytes and the state becomes ErrorIoFailed. -/
theorem tcp_server_completion_phase (cfg : Config)
    (hTcp : cfg.protocol = ProtocolType.TCP)
    (hListen : cfg.isListening = true) :
    (∀ (s : ctsIOPatternState) (t : ctsIOTask) (b : Nat),
      s.internal_state = InternalPatternState.MoreIoState →
      t.track_io_flag = true →
      t.buffer_length = s.inflight_bytes →
      b ≤ t.buffer_length →
      s.confirmed_bytes + b = s.max_transfer →
      ctsIOPatternState.completed_task cfg s t b =
        some (ctsIOPatternProtocolError.NoError,
          { s with confirmed_bytes := s.confirmed_bytes + b
                   inflight_bytes := s.inflight_bytes - t.buffer_length
                   internal_state := InternalPatternState.ServerSendCompletion
                   pended_state := false })) ∧
    (∀ (s : ctsIOPatternState) (t : ctsIOTask) (b : Nat),
      s.internal_state = InternalPatternState.ServerSendCompletion →
      t.track_io_flag = false →
      s.inflight_bytes = 0 →
      s.confirmed_bytes = s.max_transfer →
      ctsIOPatternState.completed_task cfg s t b =
        some (ctsIOPatternProtocolError.NoError,
          { s with internal_state := InternalPatternState.RequestFIN
                   pended_state := false })) ∧
    (∀ (s : ctsIOPatternState) (t : ctsIOTask),
      s.internal_state = InternalPatternState.RequestFIN →
      t.track_io_flag = false →
      s.inflight_bytes = 0 →
      s.confirmed_bytes = s.max_transfer →
      ctsIOPatternState.completed_task cfg s t 0 =
        some (ctsIOPatternProtocolError.SuccessfullyCompleted,
          { s with internal_state := InternalPatternState.CompletedTransfer })) ∧
    (∀ (s : ctsIOPatternState) (t : ctsIOTask) (b : Nat),
      s.internal_state = InternalPatternState.MoreIoState →
      t.track_io_flag = true →
      b ≤ t.buffer_length →
      t.buffer_length ≤ s.inflight_bytes →
      s.max_transfer <
        s.confirmed_bytes + b + (s.inflight_bytes - t.buffer_length) →
      ctsIOPatternState.completed_task cfg s t b =
        some (ctsIOPatternProtocolError.TooManyBytes,
          { s with confirmed_bytes := s.confirmed_bytes + b
                   inflight_bytes := s.inflight_bytes - t.buffer_length
                   internal_state := InternalPatternState.ErrorIOFailed })) := by
  refine ⟨?_, ?_, ?_, ?_⟩
  · intro s t b hState hTrack hLen hble hReach
    have h1 : ¬(b > s.inflight_bytes) := by omega
    have h2 : ¬(t.buffer_length > s.inflight_bytes) := by omega
    have h3 : ¬(b > t.buffer_length) := by omega
    have hInfZero : s.inflight_bytes - t.buffer_length = 0 := by omega
    have hNotLt : ¬(s.confirmed_bytes + b < s.max_transfer) := by omega
    simp [ctsIOPatternState.completed_task,
      ctsIOPatternState.completed_task_protocol,
      hState, hTrack, hTcp, hListen, h1, h2, h3, hInfZero, hNotLt, hReach]
  · intro s t b hState hTrack hInf hConf
    simp [ctsIOPatternState.completed_task,
      ctsIOPatternState.completed_task_protocol,
      hState, hTrack, hTcp, hListen, hInf, hConf]
  · intro s t hState hTrack hInf hConf
    simp [ctsIOPatternState.completed_task,
      ctsIOPatternState.completed_task_protocol,
      hState, hTrack, hTcp, hListen, hInf, hConf]
  · intro s t b hState hTrack hble hLenBound hOver
    have h1 : ¬(b > s.inflight_bytes) := by omega
    have h2 : ¬(t.buffer_length > s.inflight_bytes) := by omega
    have h3 : ¬(b > t.buffer_length) := by omega
    have hNotLt : ¬(s.confirmed_bytes + b +
        (s.inflight_bytes - t.buffer_length) < s.max_transfer) := by omega
    have hNotEq : ¬(s.confirmed_bytes + b +
        (s.inflight_bytes - t.buffer_length) = s.max_transfer) := by omega
    simp [ctsIOPatternState.completed_task,
      ctsIOPatternState.completed_task_protocol,
      hState, hTrack, hTcp, hListen, h1, h2, h3, hNotLt, hNotEq]

/-- C4 witness: a concrete 4-byte server transfer walks
MoreIo to ServerSendCompletion to RequestFIN to CompletedTransfer, and a
concrete overshoot yields TooManyBytes with ErrorIoFailed. -/
theorem tcp_server_completion_phase_witness :
    ctsIOPatternState.completed_task
        { protocol := ProtocolType.TCP
          isListening := true
          tcpShutdown := TcpShutdownType.GracefulShutdown }
        { confirmed_bytes := 0, max_transfer := 4, inflight_bytes := 4, isb := 0
          internal_state := InternalPatternState.MoreIoState, pended_state := false }
        { track_io_flag := true, buffer_length := 4 } 4 =
      some (ctsIOPatternProtocolError.NoError,
        { confirmed_bytes := 4, max_transfer := 4, inflight_bytes := 0, isb := 0
          internal_state := InternalPatternState.ServerSendCompletion
          pended_state := false }) ∧
    ctsIOPatternState.completed_task
        { protocol := ProtocolType.TCP
          isListening := true
          tcpShutdown := TcpShutdownType.GracefulShutdown }
        { confirmed_bytes := 4, max_transfer := 4, inflight_bytes := 0, isb := 0
          internal_state := InternalPatternState.ServerSendCompletion
          pended_state := false }
        { track_io_flag := false, buffer_length := 4 } 4 =
      some (ctsIOPatternProtocolError.NoError,
        { confirmed_bytes := 4, max_transfer := 4, inflight_bytes := 0, isb := 0
          internal_state := InternalPatternState.RequestFIN
          pended_state := false }) ∧
    ctsIOPatternState.completed_task
        { protocol := ProtocolType.TCP
          isListening := true
          tcpShutdown := TcpShutdownType.GracefulShutdown }
        { confirmed_bytes := 4, max_transfer := 4, inflight_bytes := 0, isb := 0
          internal_state := InternalPatternState.RequestFIN
          pended_state := false }
        { track_io_flag := false, buffer_length := 0 } 0 =
      some (ctsIOPatternProtocolError.SuccessfullyCompleted,
        { confirmed_bytes := 4, max_transfer := 4, inflight_bytes := 0, isb := 0
          internal_state := InternalPatternState.CompletedTransfer
          pended_state := false }) ∧
    ctsIOPatternState.completed_task
        { protocol := ProtocolType.TCP
          isListening := true
          tcpShutdown := TcpShutdownType.GracefulShutdown }
        { confirmed_bytes := 0, max_transfer := 4, inflight_bytes := 8, isb := 0
          internal_state := InternalPatternState.MoreIoState, pended_state := false }
        { track_io_flag := true, buffer_length := 8 } 8 =
      some (ctsIOPatternProtocolError.TooManyBytes,
        { confirmed_bytes := 8, max_transfer := 4, inflight_bytes := 0, isb := 0
          internal_state := InternalPatternState.ErrorIOFailed
          pended_state := false }) := by
  have hParts := tcp_server_completion_phase
    { protocol := ProtocolType.TCP
      isListening := true
      tcpShutdown := TcpShutdownType.GracefulShutdown } rfl rfl
  exact ⟨hParts.1 _ _ 4 rfl rfl rfl (by decide) (by decide),
    hParts.2.1 _ _ 4 rfl rfl rfl rfl,
    hParts.2.2.1 _ _ rfl rfl rfl rfl,
    hParts.2.2.2 _ _ 8 rfl rfl (by decide) (by decide) (by decide)⟩

/-- Helper: single-step size facts for update_buffer_length when more than
a header of bytes remains: the emitted datagram is nonempty, no larger than
the maximum datagram size, no larger than the remaining bytes, and leaves
either nothing or more than a header behind. -/
theorem update_buffer_length_spec (b : Nat) (hb : 26 < b) :
    0 < update_buffer_length b ∧
    update_buffer_length b ≤ UdpDatagramMaximumSizeBytes ∧
    update_buffer_length b ≤ b ∧
    (b - update_buffer_length b = 0 ∨ 26 < b - update_buffer_length b) := by
  unfold update_buffer_length
  simp only [UdpDatagramMaximumSizeBytes, UdpDatagramDataHeaderLength,
    UdpDatagramProtocolHeaderFlagLength, UdpDatagramSequenceNumberLength,
    UdpDatagramQPCLength, UdpDatagramQPFLength]
  split_ifs <;> omega

/-- Helper: the schedule of a zero byte count is empty at any fuel. -/
theorem mediaStreamSendScheduleAux_nil (fuel : Nat) :
    mediaStreamSendScheduleAux fuel 0 = [] := by
  cases fuel <;> simp [mediaStreamSendScheduleAux]

/-- Helper: sizing facts for every entry of the fueled schedule. -/
theorem mediaStreamSendScheduleAux_sizing (fuel : Nat) :
    ∀ b : Nat, 26 < b →
      ∀ p ∈ mediaStreamSendScheduleAux fuel b,
        p.1 ≤ UdpDatagramMaximumSizeBytes ∧
        (p.2 = 0 ∨ UdpDatagramDataHeaderLength + 1 ≤ p.2) := by
  induction fuel with
  | zero =>
      intro b _ p hp
      simp [mediaStreamSendScheduleAux] at hp
  | succ fuel ih =>
      intro b hb p hp
      have hb0 : ¬ b = 0 := by omega
      have hspec := update_buffer_length_spec b hb
      simp only [mediaStreamSendScheduleAux, hb0, if_false] at hp
      rcases List.mem_cons.mp hp with rfl | hpTail
      · refine ⟨hspec.2.1, ?_⟩
        rcases hspec.2.2.2 with h0 | h27
        · exact Or.inl h0
        · right
          show 26 + 1 ≤ b - update_buffer_length b
          omega
      · rcases hspec.2.2.2 with h0 | h27
        · rw [h0, mediaStreamSendScheduleAux_nil] at hpTail
          cases hpTail
        · exact ih (b - update_buffer_length b) h27 p hpTail

/-- C8: for every UDP MediaStream send sequence starting above the 26-byte
data header, each emitted datagram is at most 64000 bytes, and the bytes
remaining after it are either zero or at least header length plus one. -/
theorem mediaStream_datagram_sizing (bytes_to_send : Nat)
    (hb : UdpDatagramDataHeaderLength < bytes_to_send) :
    ∀ p ∈ mediaStreamSendSchedule bytes_to_send,
      p.1 ≤ UdpDatagramMaximumSizeBytes ∧
      (p.2 = 0 ∨ UdpDatagramDataHeaderLength + 1 ≤ p.2) := by
  have hb26 : 26 < bytes_to_send := hb
  exact mediaStreamSendScheduleAux_sizing bytes_to_send bytes_to_send hb26

/-- C8 witness: the single datagram of a 30-byte send satisfies both
bounds. -/
theorem mediaStream_datagram_sizing_witness :
    ((30, 0) : Nat × Nat).1 ≤ UdpDatagramMaximumSizeBytes ∧
    (((30, 0) : Nat × Nat).2 = 0 ∨
      UdpDatagramDataHeaderLength + 1 ≤ ((30, 0) : Nat × Nat).2) :=
  mediaStream_datagram_sizing 30 (by decide) (30, 0) (by decide)

/-- C9: when the throttling rate limiter sees a Send task while the quantum
is already full, it computes the earliest future quantum start that
accommodates the accumulated bytes (quantum_start plus
bytes_sent_this_quantum / bytes_per_quantum periods), delays the task until
that time when it lies in the future (otherwise no delay and the quantum
restarts at the current clock), and resets the counters:
bytes_sent_this_quantum becomes the new task's byte count and
quantum_start_time advances strictly. -/
theorem rateLimit_throttle_full_quantum (p : ctsIOPatternRateLimitThrottle)
    (task : ctsTask) (buffer_size current_time_ms : Nat)
    (hSend : task.m_ioAction = ctsTaskAction.Send)
    (hFull : p.BytesSendingPerQuantum ≤ p.bytes_sent_this_quantum)
    (hBpq : 0 < p.BytesSendingPerQuantum)
    (hPeriod : 0 < p.QuantumPeriodMs) :
    (current_time_ms < p.newQuantumStartTime →
      (p.update_time_offset task buffer_size current_time_ms).1.m_timeOffsetMilliseconds =
        p.newQuantumStartTime - current_time_ms ∧
      (p.update_time_offset task buffer_size current_time_ms).2.quantum_start_time_ms =
        p.newQuantumStartTime) ∧
    (p.newQuantumStartTime ≤ current_time_ms →
      (p.update_time_offset task buffer_size current_time_ms).1.m_timeOffsetMilliseconds = 0 ∧
      (p.update_time_offset task buffer_size current_time_ms).2.quantum_start_time_ms =
        current_time_ms) ∧
    (p.update_time_offset task buffer_size current_time_ms).2.bytes_sent_this_quantum =
      buffer_size ∧
    p.quantum_start_time_ms <
      (p.update_time_offset task buffer_size current_time_ms).2.quantum_start_time_ms := by
  have hNotLt : ¬(p.bytes_sent_this_quantum < p.BytesSendingPerQuantum) := by omega
  have hDiv : 1 ≤ p.bytes_sent_this_quantum / p.BytesSendingPerQuantum :=
    (Nat.one_le_div_iff hBpq).mpr hFull
  have hNq : p.quantum_start_time_ms + p.QuantumPeriodMs ≤ p.newQuantumStartTime := by
    unfold ctsIOPatternRateLimitThrottle.newQuantumStartTime
    have hMul : 1 * p.QuantumPeriodMs ≤
        p.bytes_sent_this_quantum / p.BytesSendingPerQuantum * p.QuantumPeriodMs :=
      Nat.mul_le_mul_right _ hDiv
    omega
  refine ⟨?_, ?_, ?_, ?_⟩
  · intro hLt
    simp [ctsIOPatternRateLimitThrottle.update_time_offset, hSend, hNotLt, hLt]
  · intro hGe
    have hNotLt2 : ¬(current_time_ms < p.newQuantumStartTime) := by omega
    simp [ctsIOPatternRateLimitThrottle.update_time_offset, hSend, hNotLt, hNotLt2]
    omega
  · by_cases hLt : current_time_ms < p.newQuantumStartTime <;>
      simp [ctsIOPatternRateLimitThrottle.update_time_offset, hSend, hNotLt, hLt]
  · by_cases hLt : current_time_ms < p.newQuantumStartTime <;>
      simp [ctsIOPatternRateLimitThrottle.update_time_offset, hSend, hNotLt, hLt] <;>
      omega

/-- C9 witness: with a 100-byte budget per 100 ms quantum, 250 bytes
accumulated and quantum start 1000, a Send at clock 1100 is delayed 100 ms
to the computed quantum start 1200, the byte counter resets to the task's
42 bytes and the quantum start advances. -/
theorem rateLimit_throttle_full_quantum_witness :
    ((⟨100, 100, 250, 1000⟩ : ctsIOPatternRateLimitThrottle).update_time_offset
        ⟨ctsTaskAction.Send, 0⟩ 42 1100).1.m_timeOffsetMilliseconds = 100 ∧
    ((⟨100, 100, 250, 1000⟩ : ctsIOPatternRateLimitThrottle).update_time_offset
        ⟨ctsTaskAction.Send, 0⟩ 42 1100).2.quantum_start_time_ms = 1200 ∧
    ((⟨100, 100, 250, 1000⟩ : ctsIOPatternRateLimitThrottle).update_time_offset
        ⟨ctsTaskAction.Send, 0⟩ 42 1100).2.bytes_sent_this_quantum = 42 ∧
    (1000 : Nat) <
      ((⟨100, 100, 250, 1000⟩ : ctsIOPatternRateLimitThrottle).update_time_offset
        ⟨ctsTaskAction.Send, 0⟩ 42 1100).2.quantum_start_time_ms := by
  have h := rateLimit_throttle_full_quantum
    ⟨100, 100, 250, 1000⟩ ⟨ctsTaskAction.Send, 0⟩ 42 1100
    rfl (by decide) (by decide) (by decide)
  have h1 := h.1 (by decide)
  exact ⟨h1.1, h1.2, h.2.2.1, h.2.2.2⟩

/-- Helper: the Start creation loop keeps the pending counter equal to the
pending pool, never touches the active counter or pool, keeps pending at or
below pending_limit, and leaves pending_limit unchanged. -/
theorem startLoop_spec (cfg : BrokerConfig) :
    ∀ (n : Nat) (B : ctsSocketBroker), B.m_totalConnectionsRemaining ≤ n →
      B.m_pendingSockets = (B.poolPending : Int) →
      B.m_activeSockets = (B.poolActive : Int) →
      B.m_pendingSockets ≤ (B.m_pendingLimit : Int) →
      (ctsSocketBroker.startLoop cfg B).m_pendingSockets =
        ((ctsSocketBroker.startLoop cfg B).poolPending : Int) ∧
      (ctsSocketBroker.startLoop cfg B).m_activeSockets =
        ((ctsSocketBroker.startLoop cfg B).poolActive : Int) ∧
      (ctsSocketBroker.startLoop cfg B).poolActive = B.poolActive ∧
      (ctsSocketBroker.startLoop cfg B).m_activeSockets = B.m_activeSockets ∧
      (ctsSocketBroker.startLoop cfg B).m_pendingSockets ≤
        ((ctsSocketBroker.startLoop cfg B).m_pendingLimit : Int) ∧
      (ctsSocketBroker.startLoop cfg B).m_pendingLimit = B.m_pendingLimit := by
  intro n
  induction n with
  | zero =>
      intro B hn h1 h2 h3
      unfold ctsSocketBroker.startLoop
      split
      · rename_i hc
        exact absurd hc.1 (by omega)
      · exact ⟨h1, h2, rfl, rfl, h3, rfl⟩
  | succ n ih =>
      intro B hn h1 h2 h3
      unfold ctsSocketBroker.startLoop
      split
      · rename_i hc
        split
        · exact ⟨h1, h2, rfl, rfl, h3, rfl⟩
        · have hrec := ih (B.createOne)
            (by simp only [ctsSocketBroker.createOne]; omega)
            (by simp only [ctsSocketBroker.createOne]; omega)
            (by simp only [ctsSocketBroker.createOne]; omega)
            (by simp only [ctsSocketBroker.createOne]; omega)
          simpa only [ctsSocketBroker.createOne] using hrec
      · exact ⟨h1, h2, rfl, rfl, h3, rfl⟩

/-- Helper: the TimerCallback refresh loop keeps counters equal to the
pools and keeps the client cap pending plus active at most
ConnectionLimit. -/
theorem timerLoop_spec (cfg : BrokerConfig) :
    ∀ (n : Nat) (B : ctsSocketBroker), B.m_totalConnectionsRemaining ≤ n →
      B.m_pendingSockets = (B.poolPending : Int) →
      B.m_activeSockets = (B.poolActive : Int) →
      (cfg.acceptFunction = false →
        B.m_pendingSockets + B.m_activeSockets ≤ (cfg.ConnectionLimit : Int)) →
      (ctsSocketBroker.timerLoop cfg B).m_pendingSockets =
        ((ctsSocketBroker.timerLoop cfg B).poolPending : Int) ∧
      (ctsSocketBroker.timerLoop cfg B).m_activeSockets =
        ((ctsSocketBroker.timerLoop cfg B).poolActive : Int) ∧
      (cfg.acceptFunction = false →
        (ctsSocketBroker.timerLoop cfg B).m_pendingSockets +
          (ctsSocketBroker.timerLoop cfg B).m_activeSockets ≤
          (cfg.ConnectionLimit : Int)) := by
  intro n
  induction n with
  | zero =>
      intro B hn h1 h2 hcap
      unfold ctsSocketBroker.timerLoop
      split
      · rename_i hc
        exact absurd hc.2 (by omega)
      · exact ⟨h1, h2, hcap⟩
  | succ n ih =>
      intro B hn h1 h2 hcap
      unfold ctsSocketBroker.timerLoop
      split
      · rename_i hc
        split
        · exact ⟨h1, h2, hcap⟩
        · rename_i hNoBreak
          have hcap2 : cfg.acceptFunction = false →
              B.createOne.m_pendingSockets + B.createOne.m_activeSockets ≤
                (cfg.ConnectionLimit : Int) := by
            intro hClient
            have hSumLt : B.m_pendingSockets + B.m_activeSockets <
                (cfg.ConnectionLimit : Int) := by
              by_contra hge
              exact hNoBreak ⟨hClient, Or.inl (by omega)⟩
            simp only [ctsSocketBroker.createOne]
            omega
          have hrec := ih (B.createOne)
            (by simp only [ctsSocketBroker.createOne]; omega)
            (by simp only [ctsSocketBroker.createOne]; push_cast; omega)
            (by simp only [ctsSocketBroker.createOne]; omega)
            hcap2
          exact hrec
      · exact ⟨h1, h2, hcap⟩

/-- Helper: the freshly constructed broker has zero counters and pools, and
for clients its pending_limit never exceeds ConnectionLimit. -/
theorem init_fields (cfg : BrokerConfig) :
    (ctsSocketBroker.init cfg).m_pendingSockets = 0 ∧
    (ctsSocketBroker.init cfg).m_activeSockets = 0 ∧
    (ctsSocketBroker.init cfg).poolPending = 0 ∧
    (ctsSocketBroker.init cfg).poolActive = 0 ∧
    (cfg.acceptFunction = false →
      (ctsSocketBroker.init cfg).m_pendingLimit ≤ cfg.ConnectionLimit) := by
  refine ⟨rfl, rfl, rfl, rfl, ?_⟩
  intro hClient
  simp [ctsSocketBroker.init, hClient]
  split <;> omega

/-- Helper: every broker state reachable under the notification discipline
keeps its counters equal to the pool phase counts and, for clients, keeps
pending plus active at most ConnectionLimit. -/
theorem broker_ginv (cfg : BrokerConfig) (B : ctsSocketBroker)
    (h : ctsSocketBroker.Reachable cfg B) :
    B.m_pendingSockets = (B.poolPending : Int) ∧
    B.m_activeSockets = (B.poolActive : Int) ∧
    (cfg.acceptFunction = false →
      B.m_pendingSockets + B.m_activeSockets ≤ (cfg.ConnectionLimit : Int)) := by
  induction h with
  | start =>
      have hf := init_fields cfg
      have hspec := startLoop_spec cfg
        (ctsSocketBroker.init cfg).m_totalConnectionsRemaining
        (ctsSocketBroker.init cfg) (Nat.le_refl _)
        (by omega) (by omega) (by omega)
      refine ⟨hspec.1, hspec.2.1, ?_⟩
      intro hClient
      have hlim := hf.2.2.2.2 hClient
      have h4 := hspec.2.2.2.1
      have h5 := hspec.2.2.2.2.1
      have h6 := hspec.2.2.2.2.2
      rw [ctsSocketBroker.Start]
      omega
  | timer hB ih =>
      rename_i B0
      simp only [ctsSocketBroker.TimerCallback]
      split
      · exact ⟨by simpa using ih.1, by simpa using ih.2.1, by simpa using ih.2.2⟩
      · split
        · have hspec := timerLoop_spec cfg
            ({ B0 with poolClosed := 0 } : ctsSocketBroker).m_totalConnectionsRemaining
            { B0 with poolClosed := 0 } (Nat.le_refl _)
            (by simpa using ih.1) (by simpa using ih.2.1)
            (by simpa using ih.2.2)
          exact hspec
        · exact ⟨by simpa using ih.1, by simpa using ih.2.1, by simpa using ih.2.2⟩
  | initiating_io_step hB hPool hEq ih =>
      rename_i B0 B1
      simp only [ctsSocketBroker.initiatingIoNotify] at hEq
      rw [if_neg (by omega)] at hEq
      rcases Option.some_inj.mp hEq with rfl
      refine ⟨?_, ?_, ?_⟩
      · show B0.m_pendingSockets - 1 = ((B0.poolPending - 1 : Nat) : Int)
        omega
      · show B0.m_activeSockets + 1 = ((B0.poolActive + 1 : Nat) : Int)
        omega
      · intro hClient
        have hc := ih.2.2 hClient
        show B0.m_pendingSockets - 1 + (B0.m_activeSockets + 1) ≤
          (cfg.ConnectionLimit : Int)
        omega
  | closing_active_step hB hPool hEq ih =>
      rename_i B0 B1
      simp only [ctsSocketBroker.closingNotify, if_true] at hEq
      rw [if_neg (by omega)] at hEq
      rcases Option.some_inj.mp hEq with rfl
      refine ⟨?_, ?_, ?_⟩
      · show B0.m_pendingSockets = ((B0.poolPending : Nat) : Int)
        omega
      · show B0.m_activeSockets - 1 = ((B0.poolActive - 1 : Nat) : Int)
        omega
      · intro hClient
        have hc := ih.2.2 hClient
        show B0.m_pendingSockets + (B0.m_activeSockets - 1) ≤
          (cfg.ConnectionLimit : Int)
        omega
  | closing_pending_step hB hPool hEq ih =>
      rename_i B0 B1
      simp only [ctsSocketBroker.closingNotify, Bool.false_eq_true, if_false] at hEq
      rw [if_neg (by omega)] at hEq
      rcases Option.some_inj.mp hEq with rfl
      refine ⟨?_, ?_, ?_⟩
      · show B0.m_pendingSockets - 1 = ((B0.poolPending - 1 : Nat) : Int)
        omega
      · show B0.m_activeSockets = ((B0.poolActive : Nat) : Int)
        omega
      · intro hClient
        have hc := ih.2.2 hClient
        show B0.m_pendingSockets - 1 + B0.m_activeSockets ≤
          (cfg.ConnectionLimit : Int)
        omega

/-- C10: for every broker state reachable through Start, TimerCallback,
InitiatingIo and Closing under the notification discipline, the pending and
active socket counters never drop below zero, and for clients pending plus
active never exceeds the configured connection limit. -/
theorem broker_counters_nonnegative_and_capped (cfg : BrokerConfig)
    (B : ctsSocketBroker) (h : ctsSocketBroker.Reachable cfg B) :
    0 ≤ B.m_pendingSockets ∧ 0 ≤ B.m_activeSockets ∧
    (cfg.acceptFunction = false →
      B.m_pendingSockets + B.m_activeSockets ≤ (cfg.ConnectionLimit : Int)) := by
  have hg := broker_ginv cfg B h
  exact ⟨by omega, by omega, hg.2.2⟩

/-- C10 witness: the started client broker with connection limit 2,
throttle 1 and 3 iterations satisfies the bounds. -/
theorem broker_counters_nonnegative_and_capped_witness :
    0 ≤ (ctsSocketBroker.Start
        { acceptFunction := false, ConnectionLimit := 2
          ConnectionThrottleLimit := 1, AcceptLimit := 0
          ServerExitLimit := 0, Iterations := 3 }
        (ctsSocketBroker.init
          { acceptFunction := false, ConnectionLimit := 2
            ConnectionThrottleLimit := 1, AcceptLimit := 0
            ServerExitLimit := 0, Iterations := 3 })).m_pendingSockets ∧
    0 ≤ (ctsSocketBroker.Start
        { acceptFunction := false, ConnectionLimit := 2
          ConnectionThrottleLimit := 1, AcceptLimit := 0
          ServerExitLimit := 0, Iterations := 3 }
        (ctsSocketBroker.init
          { acceptFunction := false, ConnectionLimit := 2
            ConnectionThrottleLimit := 1, AcceptLimit := 0
            ServerExitLimit := 0, Iterations := 3 })).m_activeSockets ∧
    (({ acceptFunction := false, ConnectionLimit := 2
        ConnectionThrottleLimit := 1, AcceptLimit := 0
        ServerExitLimit := 0, Iterations := 3 } : BrokerConfig).acceptFunction = false →
      (ctsSocketBroker.Start
        { acceptFunction := false, ConnectionLimit := 2
          ConnectionThrottleLimit := 1, AcceptLimit := 0
          ServerExitLimit := 0, Iterations := 3 }
        (ctsSocketBroker.init
          { acceptFunction := false, ConnectionLimit := 2
            ConnectionThrottleLimit := 1, AcceptLimit := 0
            ServerExitLimit := 0, Iterations := 3 })).m_pendingSockets +
      (ctsSocketBroker.Start
        { acceptFunction := false, ConnectionLimit := 2
          ConnectionThrottleLimit := 1, AcceptLimit := 0
          ServerExitLimit := 0, Iterations := 3 }
        (ctsSocketBroker.init
          { acceptFunction := false, ConnectionLimit := 2
            ConnectionThrottleLimit := 1, AcceptLimit := 0
            ServerExitLimit := 0, Iterations := 3 })).m_activeSockets ≤
      (({ acceptFunction := false, ConnectionLimit := 2
          ConnectionThrottleLimit := 1, AcceptLimit := 0
          ServerExitLimit := 0, Iterations := 3 } : BrokerConfig).ConnectionLimit : Int)) :=
  broker_counters_nonnegative_and_capped
    { acceptFunction := false, ConnectionLimit := 2
      ConnectionThrottleLimit := 1, AcceptLimit := 0
      ServerExitLimit := 0, Iterations := 3 }
    _ ctsSocketBroker.Reachable.start
